import Mathlib

/-!
Shallow embedding of `src/Main.py` (Railway Ticket Booking System).

The source is a FastAPI service backed by MongoDB.  We embed the service
functions (`search_trains`, `check_seat_availability`, `create_booking`,
`cancel_booking`) and the route handlers the claims cite, over an explicit
store state.  Modelling conventions:

* Mongo document ids (`_id`) are modelled as `String`s; the store assigns a
  fresh id (`nextId`) on insert.
* `datetime` values are modelled as `Nat` seconds since an epoch; a `date`
  string `date` parsed by `strptime(date, "%Y-%m-%d")` is the midnight of a
  day index `d`, i.e. second `86400 * d`.  `date_obj.replace(hour=23,
  minute=59, second=59)` is then `86400 * d + 86399`.
* `random.choices(string.ascii_uppercase + string.digits, k=10)` is modelled
  by an oracle `Nat → Fin 36` giving the successive random draws from the
  36-character population, in the population's order.
* `insert_one` on the `bookings` collection enforces the unique index on
  `pnr` created in `connect_to_mongo`: inserting a document whose `pnr`
  equals an existing one fails with `DuplicateKey` and stores nothing.
* `update_one` matches the first document with the given `_id` and reports
  `modified_count`, which is `0` when `$set` writes the value the document
  already has.
* pydantic `float` fare fields carry no arithmetic in the embedded code, so
  they are modelled as `Int`.
-/

/-- Pydantic model `TrainClass`: `{type, totalSeats, fare}`. -/
structure TrainClass where
  type : String
  totalSeats : Nat
  fare : Int
  deriving DecidableEq, Repr

/-- A stored train document: the `Train` pydantic model plus the Mongo `_id`
(field `id` here) and with the stored field names `from`/`to` used by the
`search_trains` query rendered as `fromStation`/`toStation`. -/
structure Train where
  id : String
  trainNumber : String
  name : String
  fromStation : String
  toStation : String
  departureTime : Nat
  arrivalTime : Nat
  classes : List TrainClass
  deriving DecidableEq, Repr

/-- Pydantic model `Passenger`. -/
structure Passenger where
  name : String
  seatNumber : String
  deriving DecidableEq, Repr

/-- Pydantic model `Booking`: exactly the fields of the source class. -/
structure Booking where
  pnr : String
  train : String
  user : String
  journeyDate : Nat
  status : String
  passengers : List Passenger
  class_type : String
  totalFare : Int
  deriving DecidableEq, Repr

/-- A booking document as stored in the `bookings` collection: the pydantic
payload plus the Mongo `_id`. -/
structure StoredBooking where
  id : String
  doc : Booking
  deriving DecidableEq, Repr

/-- The store state: the `trains` and `bookings` collections, plus the
counter supplying fresh `_id`s on insert. -/
structure DB where
  trains : List Train
  bookings : List StoredBooking
  nextId : Nat
  deriving DecidableEq, Repr

/-- Error outcome of a store write: the unique-index violation raised by
`insert_one` on a duplicate `pnr`. -/
inductive DBErr where
  | duplicateKey
  deriving DecidableEq, Repr

/-- The population `string.ascii_uppercase + string.digits`, in that order. -/
def pnrAlphabet : List Char :=
  "ABCDEFGHIJKLMNOPQRSTUVWXYZ0123456789".data

/-- Embedding of `''.join(random.choices(string.ascii_uppercase + string.digits, k=10))`:
ten successive draws from the 36-character population, via the oracle. -/
def genPNR (oracle : Nat → Fin 36) : String :=
  String.mk ((List.range 10).map (fun i => pnrAlphabet.getD (oracle i).val 'A'))

/-- Embedding of `search_trains(from_station, to_station, date)`: filter the `trains`
collection by `from`, `to` and `departureTime ∈ [date 00:00:00, date
23:59:59)` (the `$gte`/`$lt` pair of the source query); no sort stage, so
documents come back in store order. -/
def search_trains (db : DB) (from_station to_station : String) (d : Nat) :
    List Train :=
  db.trains.filter (fun t =>
    t.fromStation = from_station ∧ t.toStation = to_station ∧
    86400 * d ≤ t.departureTime ∧ t.departureTime < 86400 * d + 86399)

/-- Embedding of `check_seat_availability(train_number, date)`: find the train by
`trainNumber` (`None` if absent); count the booking documents with
`train = train["_id"]`, the journey date and `status = "confirmed"` —
with no `class_type` filter and counting documents, not seats; report
`totalSeats - count` for every class of the train. -/
def check_seat_availability (db : DB) (train_number : String) (d : Nat) :
    Option (List (String × Int)) :=
  match db.trains.find? (fun t => t.trainNumber = train_number) with
  | none => none
  | some train =>
    let bookingsCount :=
      (db.bookings.filter (fun sb =>
        sb.doc.train = train.id ∧ sb.doc.journeyDate = d ∧
        sb.doc.status = "confirmed")).length
    some (train.classes.map (fun c =>
      (c.type, (c.totalSeats : Int) - (bookingsCount : Int))))

/-- Embedding of `create_booking(booking_data)`: overwrite `booking_data.pnr` with a
fresh 10-character random code, `insert_one` the document (failing with
`DuplicateKey` when the unique `pnr` index is violated), and return the
inserted document.  No validation, no inventory check, no status change. -/
def create_booking (db : DB) (oracle : Nat → Fin 36) (booking_data : Booking) :
    Except DBErr (DB × StoredBooking) :=
  let b := { booking_data with pnr := genPNR oracle }
  if db.bookings.any (fun sb => sb.doc.pnr = b.pnr) then
    .error .duplicateKey
  else
    let sb : StoredBooking := { id := toString db.nextId, doc := b }
    .ok ({ db with bookings := db.bookings ++ [sb], nextId := db.nextId + 1 },
         sb)

/-- Embedding of `update_one({"_id": booking_id}, {"$set": {"status": "cancelled"}})` on
a list of booking documents: rewrite the first document matching the id
(when its status differs from the written value) and report
`modified_count` (`0` or `1`). -/
def setCancelledFirst : List StoredBooking → String → List StoredBooking × Nat
  | [], _ => ([], 0)
  | sb :: rest, bid =>
    if sb.id = bid then
      if sb.doc.status = "cancelled" then (sb :: rest, 0)
      else ({ sb with doc := { sb.doc with status := "cancelled" } } :: rest, 1)
    else
      (sb :: (setCancelledFirst rest bid).1, (setCancelledFirst rest bid).2)

/-- Embedding of `cancel_booking(booking_id)`: unconditional `$set status = "cancelled"`
on the matching document; returns `modified_count > 0`.  No status guard,
no inventory release. -/
def cancel_booking (db : DB) (booking_id : String) : DB × Bool :=
  ({ db with bookings := (setCancelledFirst db.bookings booking_id).1 },
   decide (0 < (setCancelledFirst db.bookings booking_id).2))

/-- The `PUT /bookings/{booking_id}/cancel` route (`cancel_ticket`): `404`
when `cancel_booking` returns `False`, a success message otherwise. -/
def cancel_ticket (db : DB) (booking_id : String) :
    DB × Except Nat String :=
  if (cancel_booking db booking_id).2 then
    ((cancel_booking db booking_id).1, .ok "Booking cancelled successfully")
  else ((cancel_booking db booking_id).1, .error 404)

/-- The number of seats confirmed in the store for one
(train `_id`, journey date, class) triple: the sum of `len(passengers)`
over the confirmed booking documents of that triple.  This is the
`confirmedSeats` quantity the specification's inventory invariant speaks
about, read off the embedded store. -/
def confirmedSeats (db : DB) (trainId : String) (d : Nat) (cls : String) :
    Nat :=
  ((db.bookings.filter (fun sb =>
      sb.doc.train = trainId ∧ sb.doc.journeyDate = d ∧
      sb.doc.status = "confirmed" ∧ sb.doc.class_type = cls)).map
    (fun sb => sb.doc.passengers.length)).sum

/-! ## Concrete scenario data -/

/-- Oracle whose every draw is index 0 (the character `A`). -/
def oracle0 : Nat → Fin 36 := fun _ => ⟨0, by decide⟩

/-- Oracle whose every draw is index 1 (the character `B`). -/
def oracle1 : Nat → Fin 36 := fun _ => ⟨1, by decide⟩

/-- A sleeper class with 2 seats, the specification's §8 scenario capacity. -/
def slClass : TrainClass := { type := "SL", totalSeats := 2, fare := 500 }

/-- Train `T100` with the single class `slClass`, departing on day 10. -/
def t100 : Train :=
  { id := "id100", trainNumber := "T100", name := "Express", fromStation := "X",
    toStation := "Y", departureTime := 86400 * 10 + 3600,
    arrivalTime := 86400 * 10 + 7200, classes := [slClass] }

/-- Store holding only `t100` and no bookings. -/
def db0 : DB := { trains := [t100], bookings := [], nextId := 0 }

/-- A passenger with the given name. -/
def pax (n : String) : Passenger := { name := n, seatNumber := "" }

/-- A booking request for 2 seats on `t100`, class `SL`, day 10, submitted
with status `"confirmed"` (the only status under which the stored record
counts as a confirmed booking). -/
def bookSL2 : Booking :=
  { pnr := "", train := "id100", user := "u1", journeyDate := 10,
    status := "confirmed", passengers := [pax "p1", pax "p2"],
    class_type := "SL", totalFare := 1000 }

/-- Class `A` with a single seat. -/
def clsA : TrainClass := { type := "A", totalSeats := 1, fare := 100 }

/-- Class `B` with five seats. -/
def clsB : TrainClass := { type := "B", totalSeats := 5, fare := 200 }

/-- Train `T200` with the two classes `clsA` and `clsB`. -/
def t200 : Train :=
  { id := "id200", trainNumber := "T200", name := "Mail", fromStation := "X",
    toStation := "Y", departureTime := 86400 * 20 + 3600,
    arrivalTime := 86400 * 20 + 9000, classes := [clsA, clsB] }

/-- A stored, confirmed, one-passenger class-`B` booking on `t200`, day 20. -/
def bookedB1 : StoredBooking :=
  { id := "0",
    doc := { pnr := "PNRB000001", train := "id200", user := "u1",
             journeyDate := 20, status := "confirmed",
             passengers := [pax "q1"], class_type := "B", totalFare := 200 } }

/-- A second stored, confirmed, one-passenger class-`B` booking on `t200`. -/
def bookedB2 : StoredBooking :=
  { id := "1",
    doc := { pnr := "PNRB000002", train := "id200", user := "u2",
             journeyDate := 20, status := "confirmed",
             passengers := [pax "q2"], class_type := "B", totalFare := 200 } }

/-- Store holding `t200` and the two confirmed class-`B` bookings. -/
def dbAvail : DB := { trains := [t200], bookings := [bookedB1, bookedB2], nextId := 2 }

/-- Store already holding a booking whose `pnr` is exactly the code
`oracle0` generates (`"AAAAAAAAAA"`). -/
def dbColl : DB :=
  { trains := [],
    bookings := [{ id := "0",
                   doc := { pnr := "AAAAAAAAAA", train := "id100", user := "u1",
                            journeyDate := 10, status := "confirmed",
                            passengers := [pax "p"], class_type := "SL",
                            totalFare := 500 } }],
    nextId := 1 }

/-- A stored booking with status `"pending"` and id `"7"`. -/
def pendingStored : StoredBooking :=
  { id := "7",
    doc := { pnr := "PNRPENDING", train := "id100", user := "u1",
             journeyDate := 10, status := "pending", passengers := [pax "p"],
             class_type := "SL", totalFare := 500 } }

/-- Store holding `t100` and the pending booking. -/
def dbPending : DB := { trains := [t100], bookings := [pendingStored], nextId := 8 }

/-- A booking request submitted with status `"pending"` and a
caller-chosen `totalFare` of 777 (2 passengers, class fare 500). -/
def bookPending : Booking :=
  { pnr := "", train := "id100", user := "u1", journeyDate := 10,
    status := "pending", passengers := [pax "p1", pax "p2"],
    class_type := "SL", totalFare := 777 }

/-- A booking request with an empty passenger list, a class `"XX"` not
present on `t100`, and journey day 0 (in the past of day 10's trains). -/
def bookInvalid : Booking :=
  { pnr := "", train := "id100", user := "u1", journeyDate := 0,
    status := "confirmed", passengers := [], class_type := "XX",
    totalFare := 0 }

/-! ## Claim theorems -/

/-- C1: the claim asserts `confirmedSeats ≤ totalSeats` is preserved by
every booking-creating operation.  The code performs no inventory check at
all: on a train whose only class `SL` has `totalSeats = 2`, two successive
`create_booking` calls for 2 confirmed seats each both succeed, leaving 4
confirmed seats for the (train, day 10, `SL`) triple — overbooking. -/
theorem C1_overbooking_failing_input :
    slClass.totalSeats = 2 ∧
    ((create_booking db0 oracle0 bookSL2).bind fun r =>
      (create_booking r.1 oracle1 bookSL2).map fun r2 =>
        confirmedSeats r2.1 "id100" 10 "SL") = Except.ok 4 :=
  ⟨rfl, rfl⟩

/-- C2: the claim asserts per-class availability `totalSeats −
confirmedSeats(class)`, never negative.  The code subtracts the count of
ALL confirmed booking documents of the (train, date) pair — regardless of
class, and counting documents rather than seats — from every class's
`totalSeats`: with zero class-`A` seats confirmed, class `A`
(`totalSeats = 1`) is reported as `-1` because of two class-`B` bookings. -/
theorem C2_availability_failing_input :
    confirmedSeats dbAvail "id200" 20 "A" = 0 ∧
    clsA.totalSeats = 1 ∧
    check_seat_availability dbAvail "T200" 20 = some [("A", -1), ("B", 3)] :=
  ⟨rfl, rfl, rfl⟩

/-- C4: the claim asserts a booking transitions to CANCELLED only from
CONFIRMED, with no mutation otherwise.  The code's `cancel_booking` applies
an unguarded `$set {status: "cancelled"}`: on a booking whose status is
`"pending"` it reports success and stores status `"cancelled"` — a
PENDING → CANCELLED transition — and it releases no inventory because no
inventory ledger exists in the code. -/
theorem C4_cancel_from_pending_failing_input :
    pendingStored.doc.status = "pending" ∧
    (cancel_booking dbPending "7").2 = true ∧
    ((cancel_booking dbPending "7").1.bookings.map fun sb => sb.doc.status)
      = ["cancelled"] :=
  ⟨rfl, rfl, rfl⟩

/-- C5: the claim asserts a successful creation persists status CONFIRMED
with `totalFare = seatCount × classFare`, independent of the caller's
input.  The code persists the caller's document unchanged except for `pnr`:
a request with status `"pending"` and `totalFare = 777` (2 passengers,
class fare 500) is stored exactly so. -/
theorem C5_status_passthrough_failing_input :
    ((create_booking db0 oracle0 bookPending).map fun r =>
      (r.2.doc.status, r.2.doc.totalFare)) = Except.ok ("pending", 777) :=
  rfl

/-- C6: the claim asserts a creation with an empty passenger list, an
unknown class or a past journey date is rejected before any state is
touched.  The code validates nothing: a request with zero passengers and a
class `"XX"` absent from the train is persisted, growing the bookings
collection. -/
theorem C6_no_validation_failing_input :
    bookInvalid.passengers = [] ∧
    (∀ c ∈ t100.classes, c.type ≠ bookInvalid.class_type) ∧
    ((create_booking db0 oracle0 bookInvalid).map fun r =>
      (r.1.bookings.length, r.2.doc.passengers, r.2.doc.class_type))
      = Except.ok (1, [], "XX") :=
  ⟨rfl, by decide, rfl⟩

/-- C3 counterexample: the claim says a PNR collision with an existing
booking is handled by retrying generation.  On a store already holding the
exact code `oracle0` generates, `create_booking` instead surfaces the
unique-index `DuplicateKey` error — no retry, the creation fails. -/
theorem C3_counterexample_collision_not_retried :
    (dbColl.bookings.map fun sb => sb.doc.pnr) = ["AAAAAAAAAA"] ∧
    genPNR oracle0 = "AAAAAAAAAA" ∧
    create_booking dbColl oracle0 bookSL2 = Except.error DBErr.duplicateKey :=
  ⟨rfl, rfl, rfl⟩

/-- C3 (amended): every created booking is assigned a 10-character PNR
drawn only from uppercase letters and digits; when the already-stored PNRs
are pairwise distinct, a successful creation keeps them pairwise distinct
(the unique index rejects a colliding insert), and a generated code
colliding with an existing booking makes the creation fail with a
duplicate-key error — generation is not retried. -/
theorem C3_pnr_shape_unique_no_retry (db : DB) (oracle : Nat → Fin 36)
    (b : Booking) (h : (db.bookings.map fun sb => sb.doc.pnr).Nodup) :
    (genPNR oracle).length = 10 ∧
    (∀ c ∈ (genPNR oracle).data, c ∈ pnrAlphabet) ∧
    (∀ db' sb, create_booking db oracle b = Except.ok (db', sb) →
      sb.doc.pnr = genPNR oracle ∧
      (db'.bookings.map fun x => x.doc.pnr).Nodup) ∧
    (create_booking db oracle b = Except.error DBErr.duplicateKey ↔
      ∃ sb ∈ db.bookings, sb.doc.pnr = genPNR oracle) := by
  refine ⟨by simp [genPNR, String.length], ?_, ?_, ?_⟩
  · intro c hc
    simp only [genPNR, List.mem_map, List.mem_range] at hc
    obtain ⟨i, _, rfl⟩ := hc
    have h36 : (oracle i).val < pnrAlphabet.length := (oracle i).isLt
    rw [List.getD_eq_getElem _ _ h36]
    exact List.getElem_mem h36
  · intro db' sb hok
    unfold create_booking at hok
    dsimp only at hok
    split at hok
    · exact absurd hok (by simp)
    · rename_i hany
      simp only [Except.ok.injEq, Prod.mk.injEq] at hok
      obtain ⟨hdb', hsb⟩ := hok
      subst hdb' hsb
      refine ⟨rfl, ?_⟩
      simp only [List.map_append, List.map_cons, List.map_nil]
      rw [List.nodup_append]
      refine ⟨h, List.nodup_singleton _, ?_⟩
      intro p hp hp1
      simp only [List.mem_singleton] at hp1
      simp only [List.mem_map] at hp
      obtain ⟨x, hx, rfl⟩ := hp
      rw [List.any_eq_true] at hany
      exact hany ⟨x, hx, by simp [hp1]⟩
  · unfold create_booking
    dsimp only
    split
    · rename_i hany
      simp only [List.any_eq_true, decide_eq_true_eq] at hany
      simpa using hany
    · rename_i hany
      simp only [List.any_eq_true, decide_eq_true_eq] at hany
      simp only [reduceCtorEq, false_iff]
      simpa using hany

/-- C3 witness: the amended theorem applied to the empty-bookings store
`db0`, `oracle0` and the request `bookSL2`. -/
theorem C3_pnr_shape_unique_no_retry_witness :
    (db0.bookings.map fun sb => sb.doc.pnr).Nodup ∧
    (genPNR oracle0).length = 10 :=
  ⟨by decide, (C3_pnr_shape_unique_no_retry db0 oracle0 bookSL2 (by decide)).1⟩

/-- Helper for C9: when `update_one` modifies nothing, the bookings list is
returned unchanged. -/
theorem setCancelledFirst_zero_eq (bs : List StoredBooking) (bid : String)
    (h : (setCancelledFirst bs bid).2 = 0) :
    (setCancelledFirst bs bid).1 = bs := by
  induction bs with
  | nil => rfl
  | cons sb rest ih =>
    by_cases hid : sb.id = bid
    · by_cases hst : sb.doc.status = "cancelled"
      · simp [setCancelledFirst, hid, hst]
      · simp [setCancelledFirst, hid, hst] at h
    · simp only [setCancelledFirst, hid, if_false, if_neg hid] at h ⊢
      exact congrArg _ (ih h)

/-- Helper for C9: with pairwise-distinct `_id`s (the store's `_id`
uniqueness), `update_one` reports `modified_count = 0` exactly when no
document matches the id or the matching document is already cancelled. -/
theorem setCancelledFirst_zero_iff (bs : List StoredBooking) (bid : String)
    (h : (bs.map fun sb => sb.id).Nodup) :
    (setCancelledFirst bs bid).2 = 0 ↔
      (∀ sb ∈ bs, sb.id ≠ bid) ∨
      ∃ sb ∈ bs, sb.id = bid ∧ sb.doc.status = "cancelled" := by
  induction bs with
  | nil => simp [setCancelledFirst]
  | cons sb rest ih =>
    simp only [List.map_cons, List.nodup_cons, List.mem_map] at h
    obtain ⟨hnin, hrest⟩ := h
    by_cases hid : sb.id = bid
    · by_cases hst : sb.doc.status = "cancelled"
      · simp only [setCancelledFirst, if_pos hid, if_pos hst]
        exact iff_of_true trivial (Or.inr ⟨sb, List.mem_cons_self _ _, hid, hst⟩)
      · simp only [setCancelledFirst, if_pos hid, if_neg hst]
        refine iff_of_false (by simp) ?_
        rintro (hall | ⟨x, hx, hxid, hxst⟩)
        · exact hall sb (List.mem_cons_self _ _) hid
        · rcases List.mem_cons.mp hx with rfl | hx'
          · exact hst hxst
          · exact hnin ⟨x, hx', by rw [hxid, hid]⟩
    · simp only [setCancelledFirst, if_neg hid]
      rw [ih hrest]
      constructor
      · rintro (hall | ⟨x, hx, hxid, hxst⟩)
        · exact Or.inl (by
            intro y hy
            rcases List.mem_cons.mp hy with rfl | hy'
            · exact hid
            · exact hall y hy')
        · exact Or.inr ⟨x, List.mem_cons_of_mem _ hx, hxid, hxst⟩
      · rintro (hall | ⟨x, hx, hxid, hxst⟩)
        · exact Or.inl fun y hy => hall y (List.mem_cons_of_mem _ hy)
        · rcases List.mem_cons.mp hx with rfl | hx'
          · exact absurd hxid hid
          · exact Or.inr ⟨x, hx', hxid, hxst⟩

/-- C9: with pairwise-distinct stored `_id`s, the cancel endpoint answers
`404` exactly when the id matches no booking OR the matching booking is
already cancelled — the two cases produce the identical observable outcome
— and in that case the store is left unchanged. -/
theorem C9_cancel_404_indistinguishable (db : DB) (bid : String)
    (h : (db.bookings.map fun sb => sb.id).Nodup) :
    ((cancel_ticket db bid).2 = Except.error 404 ↔
      (∀ sb ∈ db.bookings, sb.id ≠ bid) ∨
      ∃ sb ∈ db.bookings, sb.id = bid ∧ sb.doc.status = "cancelled") ∧
    ((cancel_ticket db bid).2 = Except.error 404 → (cancel_ticket db bid).1 = db) := by
  have hzero := setCancelledFirst_zero_iff db.bookings bid h
  by_cases hn : (setCancelledFirst db.bookings bid).2 = 0
  · have h2 : (cancel_booking db bid).2 = false := by
      simp [cancel_booking, hn]
    have ht : cancel_ticket db bid =
        ((cancel_booking db bid).1, Except.error 404) := by
      simp [cancel_ticket, h2]
    constructor
    · rw [ht]
      simpa using hzero.mp hn
    · intro _
      rw [ht]
      show { db with bookings := (setCancelledFirst db.bookings bid).1 } = db
      rw [setCancelledFirst_zero_eq db.bookings bid hn]
  · have h2 : (cancel_booking db bid).2 = true := by
      simp [cancel_booking]
      omega
    have ht : cancel_ticket db bid =
        ((cancel_booking db bid).1, Except.ok "Booking cancelled successfully") := by
      simp [cancel_ticket, h2]
    rw [ht]
    constructor
    · simp only [reduceCtorEq, false_iff]
      rw [← hzero]
      exact hn
    · intro hc
      exact absurd hc (by simp)

/-- A stored booking whose status is already `"cancelled"`, with id `"3"`. -/
def cancelledStored : StoredBooking :=
  { id := "3",
    doc := { pnr := "PNRCANC001", train := "id100", user := "u1",
             journeyDate := 10, status := "cancelled", passengers := [pax "p"],
             class_type := "SL", totalFare := 500 } }

/-- Store holding `t100` and the already-cancelled booking. -/
def dbCancelled : DB := { trains := [t100], bookings := [cancelledStored], nextId := 4 }

/-- C9 witness: the theorem applied to the store with one already-cancelled
booking and its id. -/
theorem C9_cancel_404_indistinguishable_witness :
    (dbCancelled.bookings.map fun sb => sb.id).Nodup ∧
    ((cancel_ticket dbCancelled "3").2 = Except.error 404 →
      (cancel_ticket dbCancelled "3").1 = dbCancelled) :=
  ⟨by decide, (C9_cancel_404_indistinguishable dbCancelled "3" (by decide)).2⟩

/-- A matching train departing late on day 30, stored first. -/
def tLate : Train :=
  { id := "idL", trainNumber := "T301", name := "Late", fromStation := "X",
    toStation := "Y", departureTime := 86400 * 30 + 50000,
    arrivalTime := 86400 * 30 + 60000, classes := [] }

/-- A matching train departing early on day 30, stored second. -/
def tEarly : Train :=
  { id := "idE", trainNumber := "T302", name := "Early", fromStation := "X",
    toStation := "Y", departureTime := 86400 * 30 + 1000,
    arrivalTime := 86400 * 30 + 2000, classes := [] }

/-- Store holding the two day-30 trains in descending departure order. -/
def dbSearch : DB := { trains := [tLate, tEarly], bookings := [], nextId := 0 }

/-- C7 counterexample: the claim says search results are sorted in
ascending departure time.  The source query has no sort stage, so the
result keeps store order: with the later-departing train stored first, the
returned departure times are descending, not ascending. -/
theorem C7_counterexample_unsorted :
    ((search_trains dbSearch "X" "Y" 30).map Train.departureTime)
      = [86400 * 30 + 50000, 86400 * 30 + 1000] ∧
    ¬ List.Sorted (· ≤ ·)
      ((search_trains dbSearch "X" "Y" 30).map Train.departureTime) :=
  ⟨rfl, by decide⟩

/-- C7 (amended): the search returns exactly the stored trains whose
`from`, `to` match and whose departure time lies in the day's
`[00:00:00, 23:59:59)` window, in store order (the result is a sublist of
the stored sequence; no sorting is applied). -/
theorem C7_search_exact_match_store_order (db : DB) (f t : String) (d : Nat) :
    (∀ tr, tr ∈ search_trains db f t d ↔
      tr ∈ db.trains ∧ tr.fromStation = f ∧ tr.toStation = t ∧
      86400 * d ≤ tr.departureTime ∧ tr.departureTime < 86400 * d + 86399) ∧
    (search_trains db f t d).Sublist db.trains := by
  constructor
  · intro tr
    simp [search_trains, List.mem_filter, and_assoc]
  · exact List.filter_sublist _

/-- A booking request whose caller-chosen `pnr` is exactly the code
`oracle0` generates. -/
def bookClientPnr : Booking :=
  { pnr := "AAAAAAAAAA", train := "id100", user := "u1", journeyDate := 10,
    status := "confirmed", passengers := [pax "p"], class_type := "SL",
    totalFare := 500 }

/-- C8 counterexample: the claim says the client-supplied `pnr` value never
appears in the stored record.  When the generator happens to produce the
very string the client supplied, the stored `pnr` equals the client's
value. -/
theorem C8_counterexample_client_pnr_appears :
    bookClientPnr.pnr = "AAAAAAAAAA" ∧
    ((create_booking db0 oracle0 bookClientPnr).map fun r => r.2.doc.pnr)
      = Except.ok bookClientPnr.pnr :=
  ⟨rfl, rfl⟩

/-- C8 (amended): a successful `create_booking` stores the caller's fields
unchanged except `pnr`, which is unconditionally overwritten with the
generated code; the stored `pnr` is determined by the generator alone, so
it differs from the client-supplied value whenever the generator's output
differs from it. -/
theorem C8_pnr_overwritten_frame (db : DB) (oracle : Nat → Fin 36)
    (b : Booking) (db' : DB) (sb : StoredBooking)
    (h : create_booking db oracle b = Except.ok (db', sb)) :
    sb.doc = { b with pnr := genPNR oracle } ∧
    sb.doc.pnr = genPNR oracle ∧
    (b.pnr ≠ genPNR oracle → sb.doc.pnr ≠ b.pnr) := by
  unfold create_booking at h
  dsimp only at h
  split at h
  · exact absurd h (by simp)
  · simp only [Except.ok.injEq, Prod.mk.injEq] at h
    obtain ⟨hdb', hsb⟩ := h
    subst hdb' hsb
    exact ⟨rfl, rfl, fun hne hEq => hne hEq.symm⟩

/-- The booking document `create_booking db0 oracle0 bookSL2` stores. -/
def sbAfter0 : StoredBooking :=
  { id := "0", doc := { bookSL2 with pnr := "AAAAAAAAAA" } }

/-- The store after `create_booking db0 oracle0 bookSL2`. -/
def dbAfter0 : DB := { trains := [t100], bookings := [sbAfter0], nextId := 1 }

/-- C8 witness: the frame theorem applied to the concrete creation on
`db0`. -/
theorem C8_pnr_overwritten_frame_witness :
    create_booking db0 oracle0 bookSL2 = Except.ok (dbAfter0, sbAfter0) ∧
    sbAfter0.doc.pnr = genPNR oracle0 :=
  ⟨rfl, (C8_pnr_overwritten_frame db0 oracle0 bookSL2 dbAfter0 sbAfter0 rfl).2.1⟩

/-- C10: for a stored train matching the route, search membership holds
exactly when the departure time lies in `[86400 d, 86400 d + 86399)` — the
day's `00:00:00` to `23:59:59` exclusive — so a train departing at or
after second `23:59:59` of the day is omitted from that day's search. -/
theorem C10_last_second_excluded (db : DB) (f t : String) (d : Nat)
    (tr : Train) (htr : tr ∈ db.trains) (hf : tr.fromStation = f)
    (ht : tr.toStation = t) :
    (tr ∈ search_trains db f t d ↔
      86400 * d ≤ tr.departureTime ∧ tr.departureTime < 86400 * d + 86399) ∧
    (86400 * d + 86399 ≤ tr.departureTime → tr ∉ search_trains db f t d) := by
  have hmem : tr ∈ search_trains db f t d ↔
      86400 * d ≤ tr.departureTime ∧ tr.departureTime < 86400 * d + 86399 := by
    simp [search_trains, List.mem_filter, htr, hf, ht]
  refine ⟨hmem, fun hlate hin => ?_⟩
  have hlt := (hmem.mp hin).2
  omega

/-- A route-matching train departing exactly at `23:59:59` of day 30. -/
def tBoundary : Train :=
  { id := "idB", trainNumber := "T303", name := "Boundary", fromStation := "X",
    toStation := "Y", departureTime := 86400 * 30 + 86399,
    arrivalTime := 86400 * 30 + 90000, classes := [] }

/-- Store holding only the boundary train. -/
def dbBoundary : DB := { trains := [tBoundary], bookings := [], nextId := 0 }

/-- C10 witness: the boundary train is stored, matches the route, departs
on day 30 at `23:59:59`, and the day-30 search omits it. -/
theorem C10_last_second_excluded_witness :
    tBoundary ∈ dbBoundary.trains ∧
    tBoundary ∉ search_trains dbBoundary "X" "Y" 30 :=
  ⟨by decide,
   (C10_last_second_excluded dbBoundary "X" "Y" 30 tBoundary (by decide)
      rfl rfl).2 (by decide)⟩
